import Mathlib

/-!
Shallow embedding of the Py_ORM_for_PostgreSQL core: the query-building
layer (`src/orm/db.py`, class `ConnectionPool`) and the schema-metadata /
entity-operation layer (`src/orm/model.py`, classes `ModelMeta` and
`BaseModel`).  Python dictionaries are modelled as insertion-ordered
association lists, Python values as the inductive `PyVal`, and the regex
substitutions of `_camel_to_snake` as explicit recursive functions over
character lists.  The database driver is passed in as an explicit oracle
where an operation's result depends on fetched rows.
-/

/-- Python runtime values that flow through the ORM: the subset the query
builders and field-default rendering actually handle.  `pnone` is
Python's `None`. -/
inductive PyVal where
  | pnone
  | pint (n : Int)
  | pstr (s : String)
  | pbool (b : Bool)
  deriving DecidableEq, Repr

/-- Python `f"..."` / `str(v)` textual form of a value, as used by
f-string interpolation in `model.py` (DEFAULT rendering, LIMIT/OFFSET
interpolation). -/
def PyVal.text : PyVal → String
  | .pnone => "None"
  | .pint n => toString n
  | .pstr s => s
  | .pbool b => if b then "True" else "False"

/-- Python truthiness, as used by `if limit:` / `if offset:` in
`BaseModel.find_all`. -/
def PyVal.truthy : PyVal → Bool
  | .pnone => false
  | .pint n => n != 0
  | .pstr s => s ≠ ""
  | .pbool b => b

namespace ConnectionPool

/-- The placeholder join of `ConnectionPool.create` (db.py line 97):
a comma join of dollar-numbered placeholders over the range of the data
length. -/
def insertPlaceholders (n : Nat) : String :=
  String.intercalate ", " ((List.range n).map fun i => "$" ++ toString (i + 1))

/-- `ConnectionPool.create` (db.py lines 95-99): builds the INSERT
statement and its ordered argument list.  `data` is the Python dict in
iteration (insertion) order. -/
def create (table_name : String) (data : List (String × PyVal)) : String × List PyVal :=
  let cols := String.intercalate ", " (data.map Prod.fst)
  let vals := insertPlaceholders data.length
  ("INSERT INTO " ++ table_name ++ " (" ++ cols ++ ") VALUES (" ++ vals ++ ") RETURNING *;",
   data.map Prod.snd)

/-- The enumerate-based predicate join shared by `read`, `update` and
`delete` in db.py: each key `k` at enumerate index `i` renders as
`k = $(i+1+off)`, with `off = 0` except in `update`'s WHERE clause where
`off = len(data)`. -/
def enumConds (sep : String) (off : Nat) (conds : List (String × PyVal)) : String :=
  String.intercalate sep
    ((List.enum conds).map fun p => p.2.1 ++ " = $" ++ toString (p.1 + 1 + off))

/-- `ConnectionPool.read` (db.py lines 101-104): SELECT statement and
ordered arguments. -/
def read (table_name : String) (query_name : String := "*")
    (conditions : List (String × PyVal) := []) : String × List PyVal :=
  let conds := enumConds " AND " 0 conditions
  ("SELECT " ++ query_name ++ " FROM " ++ table_name ++ " WHERE " ++ conds ++ ";",
   conditions.map Prod.snd)

/-- `ConnectionPool.update` (db.py lines 106-110): UPDATE statement and
ordered arguments (`data` values followed by `conditions` values). -/
def update (table_name : String) (data : List (String × PyVal))
    (conditions : List (String × PyVal) := []) : String × List PyVal :=
  let set_clause := enumConds ", " 0 data
  let conds := enumConds " AND " data.length conditions
  ("UPDATE " ++ table_name ++ " SET " ++ set_clause ++ " WHERE " ++ conds ++ " RETURNING *;",
   data.map Prod.snd ++ conditions.map Prod.snd)

/-- `ConnectionPool.delete` (db.py lines 112-115). -/
def delete (table_name : String) (conditions : List (String × PyVal) := []) :
    String × List PyVal :=
  let conds := enumConds " AND " 0 conditions
  ("DELETE FROM " ++ table_name ++ " WHERE " ++ conds ++ " RETURNING *;",
   conditions.map Prod.snd)

end ConnectionPool

/-! Spec-side renderings.  These follow the wording of the specification
(`spec.md` §4.3): placeholders are 1-based, contiguous, and numbered in
the exact order values are appended to the argument list.  They are
written as direct recursions carrying the next placeholder number, to be
compared with the enumerate-based source definitions above. -/

/-- Spec wording of the predicate list: `<k1> = $n, <k2> = $(n+1), …`,
numbering the conditions contiguously starting at `n`. -/
def specNumbered (n : Nat) : List (String × PyVal) → List String
  | [] => []
  | (k, _) :: rest => (k ++ " = $" ++ toString n) :: specNumbered (n + 1) rest

/-- Spec wording of the placeholder list: `$n, $(n+1), …` of length `len`. -/
def specPlaceholders (n : Nat) : Nat → List String
  | 0 => []
  | len + 1 => ("$" ++ toString n) :: specPlaceholders (n + 1) len

/-! ### NamingConverter: `ModelMeta._camel_to_snake` (model.py lines 58-63)

The two `re.sub` passes are embedded as explicit left-to-right scans over
the character list, with non-overlapping matches and greedy `[a-z]+` runs,
exactly as Python's `re.sub` behaves on these patterns.  The regex
character classes `[A-Z]`, `[a-z]`, `[a-z0-9]` are the ASCII ranges, and
`.` matches any character except a newline. -/

/-- The regex class `[A-Z]`. -/
def isUpperAZ (c : Char) : Bool := decide (65 ≤ c.toNat) && decide (c.toNat ≤ 90)

/-- The regex class `[a-z]`. -/
def isLowerAZ (c : Char) : Bool := decide (97 ≤ c.toNat) && decide (c.toNat ≤ 122)

/-- The regex class `[a-z0-9]`. -/
def isLowerDigit (c : Char) : Bool :=
  isLowerAZ c || (decide (48 ≤ c.toNat) && decide (c.toNat ≤ 57))

/-- One pass of the substitution with pattern `(.)([A-Z][a-z]+)` and
replacement `\1_\2`: scan left to right; at a position whose character is
not a newline, followed by an uppercase letter and then at least one
lowercase letter, insert `_` after the first character, copy the
uppercase letter and the (greedy) lowercase run, and resume scanning
after the run.  The fuel argument is the length of the remaining input,
which strictly exceeds the length passed to every recursive call. -/
def sub1Aux : Nat → List Char → List Char
  | 0, l => l
  | _ + 1, [] => []
  | _ + 1, [a] => [a]
  | _ + 1, [a, b] => [a, b]
  | f + 1, a :: b :: c :: tl =>
    if (a != '\n') && (isUpperAZ b && isLowerAZ c) then
      a :: '_' :: b :: c :: (tl.takeWhile isLowerAZ ++ sub1Aux f (tl.dropWhile isLowerAZ))
    else
      a :: sub1Aux f (b :: c :: tl)

/-- The first regex pass of `_camel_to_snake` (model.py line 62). -/
def sub1 (l : List Char) : List Char := sub1Aux l.length l

/-- One pass of the substitution with pattern `([a-z0-9])([A-Z])` and
replacement `\1_\2`: insert `_` between a lowercase-or-digit character
and an uppercase letter, resuming after the matched pair. -/
def sub2Aux : Nat → List Char → List Char
  | 0, l => l
  | _ + 1, [] => []
  | _ + 1, [a] => [a]
  | f + 1, a :: b :: tl =>
    if isLowerDigit a && isUpperAZ b then
      a :: '_' :: b :: sub2Aux f tl
    else
      a :: sub2Aux f (b :: tl)

/-- The second regex pass of `_camel_to_snake` (model.py line 63). -/
def sub2 (l : List Char) : List Char := sub2Aux l.length l

/-- `ModelMeta._camel_to_snake`: the two regex passes followed by
`.lower()`.  `Char.toLower` lowercases exactly the ASCII uppercase range,
which is the only range the regex classes distinguish. -/
def camel_to_snake (s : String) : String :=
  String.mk ((sub2 (sub1 s.data)).map Char.toLower)

/-! ### Schema metadata: `FieldType`, `ForeignKey`, `Field`, `ModelMeta.__new__`
(db.py lines 21-33, model.py lines 9-53 and 65-121)

The embedding covers models whose attributes are declared with explicit
`Field` descriptors; the separate inference of extra fields from plain
type hints (model.py lines 109-115, `_infer_field_type`) is an
independent code path no claim refers to and is not modelled. -/

namespace Orm

/-- The `FieldType` enum (db.py lines 21-33). -/
inductive FieldType where
  | INT | BIGINT | SMALLINT | VARCHAR | TEXT | BOOLEAN | TIMESTAMP | DATE | DECIMAL | JSON | UUID
  deriving DecidableEq, Repr

/-- The SQL type text of each `FieldType` member (its `.value`). -/
def FieldType.value : FieldType → String
  | .INT => "INTEGER"
  | .BIGINT => "BIGINT"
  | .SMALLINT => "SMALLINT"
  | .VARCHAR => "VARCHAR"
  | .TEXT => "TEXT"
  | .BOOLEAN => "BOOLEAN"
  | .TIMESTAMP => "TIMESTAMP"
  | .DATE => "DATE"
  | .DECIMAL => "DECIMAL"
  | .JSON => "JSON"
  | .UUID => "UUID"

/-- The `ForeignKey` descriptor (model.py lines 9-17): reference
metadata. -/
structure ForeignKey where
  reference_model : String
  reference_field : String := "id"
  on_delete : String := "CASCADE"
  on_update : String := "CASCADE"
  deriving DecidableEq, Repr

/-- The `Field` descriptor (model.py lines 31-41).  `default = .pnone`
models Python's `default: Any = None`. -/
structure Field where
  field_type : FieldType
  nullable : Bool := true
  default : PyVal := .pnone
  primary_key : Bool := false
  unique : Bool := false
  foreign_key : Option ForeignKey := none
  deriving DecidableEq, Repr

/-- The column-definition fragment built for one `Field` inside
`ModelMeta.__new__` (model.py lines 83-95): sequential appends of the
NOT NULL, PRIMARY KEY, UNIQUE and DEFAULT clauses.  The DEFAULT clause is
emitted only when `default is not None and not primary_key`; string
defaults are single-quoted, other defaults use f-string interpolation. -/
def renderField (f : Field) : String :=
  let field_def := f.field_type.value
  let field_def := if !f.nullable then field_def ++ " NOT NULL" else field_def
  let field_def := if f.primary_key then field_def ++ " PRIMARY KEY" else field_def
  let field_def := if f.unique then field_def ++ " UNIQUE" else field_def
  if f.default != .pnone && !f.primary_key then
    match f.default with
    | .pstr s => field_def ++ " DEFAULT '" ++ s ++ "'"
    | v => field_def ++ " DEFAULT " ++ v.text
  else field_def

/-- The resolved foreign-key record stored in `_foreign_keys`
(model.py lines 98-105). -/
structure FKInfo where
  reference_table : String
  reference_field : String
  on_delete : String
  on_update : String
  deriving DecidableEq, Repr

/-- The static metadata `ModelMeta.__new__` attaches to an entity class:
`_table_name`, the declared `Field` descriptors in namespace order, the
rendered `_fields` map, `_primary_key` and `_foreign_keys`. -/
structure ModelSchema where
  name : String
  table_name : String
  fields : List (String × Field)
  fields_sql : List (String × String)
  primary_key : Option String
  foreign_keys : List (String × FKInfo)
  deriving DecidableEq, Repr

/-- The field-collection loop of `ModelMeta.__new__` (model.py lines
80-107): renders each field, records the primary key (each flagged field
overwrites the previous record, so the last declaration wins), and
resolves foreign-key metadata. -/
def modelMetaNew (name : String) (table_override : Option String)
    (decls : List (String × Field)) : ModelSchema :=
  let step := fun (acc : List (String × String) × Option String × List (String × FKInfo))
      (d : String × Field) =>
    let pk := if d.2.primary_key then some d.1 else acc.2.1
    let fks := match d.2.foreign_key with
      | some fk => acc.2.2 ++ [(d.1,
          { reference_table := camel_to_snake fk.reference_model,
            reference_field := fk.reference_field,
            on_delete := fk.on_delete,
            on_update := fk.on_update })]
      | none => acc.2.2
    (acc.1 ++ [(d.1, renderField d.2)], pk, fks)
  let collected := decls.foldl step ([], none, [])
  { name := name,
    table_name := table_override.getD (camel_to_snake name),
    fields := decls,
    fields_sql := collected.1,
    primary_key := collected.2.1,
    foreign_keys := collected.2.2 }

/-! ### Entity-instance state and operations (`BaseModel`, model.py lines 145-301)

An instance's `__dict__` is an insertion-ordered association list.  The
`Field` descriptor protocol makes `getattr` fall back to the field's
default and makes `hasattr` always true for a declared field, so
`to_dict` lists every declared field. -/

/-- Python `dict` assignment: overwrite in place if the key is present,
else append. -/
def dictSet (d : List (String × PyVal)) (k : String) (v : PyVal) : List (String × PyVal) :=
  if d.any (fun p => p.1 == k) then d.map (fun p => if p.1 == k then (k, v) else p)
  else d ++ [(k, v)]

/-- Python `dict.get` / attribute lookup in `__dict__`. -/
def dictGet (d : List (String × PyVal)) (k : String) : Option PyVal :=
  (d.find? (fun p => p.1 == k)).map Prod.snd

/-- `Field.__get__` (model.py lines 46-49): look the name up in
`__dict__` and fall back to the descriptor's default. -/
def fieldGet (d : List (String × PyVal)) (n : String) (f : Field) : PyVal :=
  (dictGet d n).getD f.default

/-- `BaseModel.to_dict` (model.py lines 197-203): every declared field is
present (`hasattr` is true through the descriptor), valued by `getattr`. -/
def to_dict (m : ModelSchema) (d : List (String × PyVal)) : List (String × PyVal) :=
  m.fields.map (fun nf => (nf.1, fieldGet d nf.1 nf.2))

/-- The `setattr` loop filtered by `key in self._fields`, shared by
`BaseModel.__init__` (lines 164-166) and `BaseModel.update` (lines
272-274). -/
def mergeFields (m : ModelSchema) (d : List (String × PyVal))
    (kwargs : List (String × PyVal)) : List (String × PyVal) :=
  kwargs.foldl
    (fun acc kv => if m.fields.any (fun p => p.1 == kv.1) then dictSet acc kv.1 kv.2 else acc) d

/-- `cls.from_dict(dict(row))` (model.py lines 205-208): a fresh instance
whose `__dict__` holds the row's declared-field entries. -/
def from_dict (m : ModelSchema) (row : List (String × PyVal)) : List (String × PyVal) :=
  mergeFields m [] row

/-- `BaseModel.save` (model.py lines 215-227): the INSERT statement built
from `to_dict()` — quoted identifiers, no RETURNING clause — and its
ordered argument list. -/
def save_query (m : ModelSchema) (d : List (String × PyVal)) : String × List PyVal :=
  let data := to_dict m d
  let placeholders := String.intercalate ", "
    ((List.range data.length).map fun i => "$" ++ toString (i + 1))
  let columns := String.intercalate ", " (data.map fun kv => "\"" ++ kv.1 ++ "\"")
  ("INSERT INTO \"" ++ m.table_name ++ "\" (" ++ columns ++ ") VALUES (" ++ placeholders ++ ")",
   data.map Prod.snd)

/-- `BaseModel.save` run against an execution oracle: the instance state
is returned untouched — `save` never reads a returned row back into the
instance. -/
def save_run (m : ModelSchema) (d : List (String × PyVal))
    (exec : String → List PyVal → Except String String) :
    List (String × PyVal) × Except String String :=
  (d, exec (save_query m d).1 (save_query m d).2)

/-- `BaseModel.find_by_id` (model.py lines 229-244), with the driver's
`fetchrow` as an oracle from (sql, args) to an optional row. -/
def find_by_id (m : ModelSchema) (id_value : PyVal)
    (fetchrow : String → List PyVal → Option (List (String × PyVal))) :
    Except String (Option (List (String × PyVal))) :=
  match m.primary_key with
  | none => .error ("Model " ++ m.name ++ " has no primary key defined")
  | some pk =>
    let query := "SELECT * FROM \"" ++ m.table_name ++ "\" WHERE \"" ++ pk ++ "\" = $1"
    .ok ((fetchrow query [id_value]).map (from_dict m))

/-- `BaseModel.find_all` (model.py lines 246-260): the SQL text, with
`LIMIT`/`OFFSET` appended by f-string interpolation whenever the supplied
value is truthy — no validation of any kind is applied to the value. -/
def find_all_query (m : ModelSchema) (limit : Option PyVal) (offset : Option PyVal) : String :=
  let query := "SELECT * FROM \"" ++ m.table_name ++ "\""
  let query := match limit with
    | some v => if v.truthy then query ++ " LIMIT " ++ v.text else query
    | none => query
  match offset with
  | some v => if v.truthy then query ++ " OFFSET " ++ v.text else query
  | none => query

/-- Python `dict.pop`: the value at the key and the dict without that
entry, or failure (`KeyError`) when the key is absent. -/
def popKey : List (String × PyVal) → String → Option (PyVal × List (String × PyVal))
  | [], _ => none
  | kv :: rest, k =>
    if kv.1 == k then some (kv.2, rest)
    else match popKey rest k with
      | some (v, rest2) => some (v, kv :: rest2)
      | none => none

/-- `BaseModel.update` (model.py lines 262-287) up to the database call:
the instance state after the `setattr` merge, and either an error, or the
optional (sql, args) pair — `none` when `data` is empty after popping the
primary key, in which case the method returns without executing. -/
def update_op (m : ModelSchema) (d : List (String × PyVal))
    (kwargs : List (String × PyVal)) :
    List (String × PyVal) × Except String (Option (String × List PyVal)) :=
  match m.primary_key with
  | none => (d, .error ("Model " ++ m.name ++ " has no primary key defined"))
  | some pk =>
    let merged := mergeFields m d kwargs
    let data := to_dict m merged
    match popKey data pk with
    | none => (merged, .error "KeyError")
    | some (primary_key_value, data2) =>
      if data2.isEmpty then (merged, .ok none)
      else
        let set_clauses := String.intercalate ", "
          ((List.enum data2).map fun p => "\"" ++ p.2.1 ++ "\" = $" ++ toString (p.1 + 1))
        let values := data2.map Prod.snd ++ [primary_key_value]
        let query := "UPDATE \"" ++ m.table_name ++ "\" SET " ++ set_clauses ++
          " WHERE \"" ++ pk ++ "\" = $" ++ toString (data2.length + 1)
        (merged, .ok (some (query, values)))

/-- `BaseModel.update` run against an execution oracle.  The first
component is the instance's field state when the call finishes — normally
or by exception. -/
def update_run (m : ModelSchema) (d : List (String × PyVal))
    (kwargs : List (String × PyVal))
    (exec : String → List PyVal → Except String String) :
    List (String × PyVal) × Except String (Option String) :=
  match update_op m d kwargs with
  | (st, .error e) => (st, .error e)
  | (st, .ok none) => (st, .ok none)
  | (st, .ok (some (q, vs))) => (st, (exec q vs).map some)

/-- Spec wording for the SET list of `BaseModel.update`: quoted column
names with contiguous placeholder numbers starting at `n`. -/
def specNumberedQ (n : Nat) : List (String × PyVal) → List String
  | [] => []
  | (k, _) :: rest => ("\"" ++ k ++ "\" = $" ++ toString n) :: specNumberedQ (n + 1) rest

/-! Concrete fixtures used by counterexamples and witnesses. -/

/-- A field declared as `Field(FieldType.INT, nullable=False, primary_key=True)`. -/
def idField : Field := { field_type := .INT, nullable := false, primary_key := true }

/-- A field declared as `Field(FieldType.TEXT)`. -/
def nameField : Field := { field_type := .TEXT }

/-- A model class `UserProfile(BaseModel)` with `id` (primary key) and
`name`. -/
def UserSchema : ModelSchema :=
  modelMetaNew "UserProfile" none [("id", idField), ("name", nameField)]

/-- A model class `Point(BaseModel)` with two plain INT fields and no
primary key. -/
def PointSchema : ModelSchema :=
  modelMetaNew "Point" none
    [("x", { field_type := .INT }), ("y", { field_type := .INT })]

/-- A model class declaring two primary-key fields. -/
def DupSchema : ModelSchema :=
  modelMetaNew "DupKey" none [("a", idField), ("b", idField)]

end Orm

/-- A primary-key field that also carries a default value. -/
def pkDefaulted : Orm.Field :=
  { field_type := .INT, nullable := false, default := PyVal.pint 7, primary_key := true }

/-! ## Supporting lemmas -/

theorem specNumbered_length (n : Nat) (l : List (String × PyVal)) :
    (specNumbered n l).length = l.length := by
  induction l generalizing n with
  | nil => rfl
  | cons a t ih => simp [specNumbered, ih]

/-- The enumerate-based join of the source equals the spec-side contiguous
numbering starting at `off + 1`. -/
theorem enumConds_eq_specNumbered (sep : String) (off : Nat)
    (conds : List (String × PyVal)) :
    ConnectionPool.enumConds sep off conds =
      String.intercalate sep (specNumbered (off + 1) conds) := by
  unfold ConnectionPool.enumConds
  congr 1
  rw [List.enum_eq_zip_range]
  suffices h : ∀ (j : Nat),
      (List.zip (List.range' j conds.length) conds).map
          (fun p => p.2.1 ++ " = $" ++ toString (p.1 + 1 + off)) =
        specNumbered (j + 1 + off) conds by
    have := h 0
    simpa [List.range_eq_range', Nat.add_comm] using this
  intro j
  induction conds generalizing j with
  | nil => simp [specNumbered]
  | cons a t ih =>
    simp only [List.length_cons, List.range'_succ, List.zip_cons_cons, List.map_cons,
      specNumbered]
    congr 1
    have := ih (j + 1)
    have harith : j + 1 + 1 + off = j + 1 + off + 1 := by omega
    rw [this, harith]

theorem range'_map_placeholder (n : Nat) (j : Nat) :
    (List.range' j n).map (fun i => "$" ++ toString (i + 1)) = specPlaceholders (j + 1) n := by
  induction n generalizing j with
  | zero => rfl
  | succ n ih =>
    rw [List.range'_succ]
    simp only [List.map_cons, specPlaceholders]
    congr 1
    exact ih (j + 1)

theorem insertPlaceholders_eq (n : Nat) :
    ConnectionPool.insertPlaceholders n = String.intercalate ", " (specPlaceholders 1 n) := by
  unfold ConnectionPool.insertPlaceholders
  congr 1
  rw [List.range_eq_range']
  exact range'_map_placeholder n 0

theorem enumQ_eq_specNumberedQ (l : List (String × PyVal)) :
    ((List.enum l).map fun p => "\"" ++ p.2.1 ++ "\" = $" ++ toString (p.1 + 1)) =
      Orm.specNumberedQ 1 l := by
  rw [List.enum_eq_zip_range]
  suffices h : ∀ j, (List.zip (List.range' j l.length) l).map
      (fun p => "\"" ++ p.2.1 ++ "\" = $" ++ toString (p.1 + 1)) =
        Orm.specNumberedQ (j + 1) l by
    simpa [List.range_eq_range'] using h 0
  intro j
  induction l generalizing j with
  | nil => simp [Orm.specNumberedQ]
  | cons a t ih =>
    simp only [List.length_cons, List.range'_succ, List.zip_cons_cons, List.map_cons,
      Orm.specNumberedQ]
    congr 1
    exact ih (j + 1)

theorem char_toNat_ofNat (n : Nat) (h : n < 0xd800) : (Char.ofNat n).toNat = n := by
  unfold Char.ofNat
  rw [dif_pos (Or.inl h)]
  rfl

theorem toLower_toNat (c : Char) :
    (Char.toLower c).toNat = if 65 ≤ c.toNat ∧ c.toNat ≤ 90 then c.toNat + 32 else c.toNat := by
  simp only [Char.toLower, ge_iff_le]
  split
  · rename_i h
    exact char_toNat_ofNat (c.toNat + 32) (by omega)
  · rfl

theorem isUpperAZ_toLower (c : Char) : isUpperAZ (Char.toLower c) = false := by
  simp only [isUpperAZ, toLower_toNat]
  split <;> simp <;> omega

theorem toLower_eq_self (c : Char) (h : isUpperAZ c = false) : Char.toLower c = c := by
  unfold Char.toLower
  rw [if_neg]
  intro hc
  simp [isUpperAZ] at h
  omega

theorem noUpper_map_toLower (l : List Char) :
    ∀ c ∈ l.map Char.toLower, isUpperAZ c = false := by
  intro c hc
  rcases List.mem_map.mp hc with ⟨d, _, rfl⟩
  exact isUpperAZ_toLower d

theorem sub1Aux_id (f : Nat) (l : List Char) (h : ∀ c ∈ l, isUpperAZ c = false) :
    sub1Aux f l = l := by
  induction f generalizing l with
  | zero => rfl
  | succ f ih =>
    match l with
    | [] => rfl
    | [a] => rfl
    | [a, b] => rfl
    | a :: b :: c :: tl =>
      have hb : isUpperAZ b = false := h b (by simp)
      simp only [sub1Aux, hb, Bool.false_and, Bool.and_false, Bool.false_eq_true, if_false]
      rw [ih (b :: c :: tl)]
      intro x hx
      exact h x (by simp at hx ⊢; tauto)

theorem sub2Aux_id (f : Nat) (l : List Char) (h : ∀ c ∈ l, isUpperAZ c = false) :
    sub2Aux f l = l := by
  induction f generalizing l with
  | zero => rfl
  | succ f ih =>
    match l with
    | [] => rfl
    | [a] => rfl
    | a :: b :: tl =>
      have hb : isUpperAZ b = false := h b (by simp)
      simp only [sub2Aux, hb, Bool.and_false, Bool.false_eq_true, if_false]
      rw [ih (b :: tl)]
      intro x hx
      exact h x (by simp at hx ⊢; tauto)

theorem map_toLower_id (l : List Char) (h : ∀ c ∈ l, isUpperAZ c = false) :
    l.map Char.toLower = l := by
  induction l with
  | nil => rfl
  | cons a t ih =>
    simp only [List.map_cons]
    rw [toLower_eq_self a (h a (by simp)), ih]
    intro x hx
    exact h x (by simp [hx])

theorem camel_to_snake_idem (s : String) :
    camel_to_snake (camel_to_snake s) = camel_to_snake s := by
  unfold camel_to_snake sub1 sub2
  have hnu := noUpper_map_toLower
    (sub2Aux (sub1Aux s.data.length s.data).length (sub1Aux s.data.length s.data))
  set l := (sub2Aux (sub1Aux s.data.length s.data).length
    (sub1Aux s.data.length s.data)).map Char.toLower with hl
  have hdata : (String.mk l).data = l := rfl
  rw [hdata]
  rw [sub1Aux_id _ l hnu, sub2Aux_id _ l hnu, map_toLower_id l hnu]

theorem popKey_not_mem {l : List (String × PyVal)} {k : String} {v : PyVal}
    {l2 : List (String × PyVal)} (hnd : (l.map Prod.fst).Nodup)
    (h : Orm.popKey l k = some (v, l2)) : k ∉ l2.map Prod.fst := by
  induction l generalizing l2 with
  | nil => simp [Orm.popKey] at h
  | cons a t ih =>
    simp only [Orm.popKey] at h
    by_cases hk : a.1 == k
    · rw [if_pos hk] at h
      obtain ⟨rfl, rfl⟩ : v = a.2 ∧ l2 = t := by
        cases h
        exact ⟨rfl, rfl⟩
      simp only [List.map_cons, List.nodup_cons] at hnd
      have hk2 : a.1 = k := by simpa using hk
      exact hk2 ▸ hnd.1
    · rw [if_neg hk] at h
      rcases hrec : Orm.popKey t k with _ | ⟨v2, rest2⟩
      · rw [hrec] at h
        cases h
      · rw [hrec] at h
        obtain ⟨rfl, rfl⟩ : v = v2 ∧ l2 = a :: rest2 := by
          cases h
          exact ⟨rfl, rfl⟩
        simp only [List.map_cons, List.nodup_cons] at hnd
        simp only [List.map_cons, List.mem_cons, not_or]
        constructor
        · intro hak
          exact hk (by simp [hak])
        · exact ih hnd.2 hrec

theorem to_dict_keys (m : Orm.ModelSchema) (d : List (String × PyVal)) :
    (Orm.to_dict m d).map Prod.fst = m.fields.map Prod.fst := by
  unfold Orm.to_dict
  rw [List.map_map]
  rfl

/-- The sequential clause build of `renderField` equals the spec's fixed
clause-order concatenation `TYPE ++ [NOT NULL] ++ [PRIMARY KEY] ++
[UNIQUE] ++ [DEFAULT literal]`. -/
theorem renderField_clauses (f : Orm.Field) :
    Orm.renderField f =
      f.field_type.value ++ (if f.nullable then "" else " NOT NULL") ++
      (if f.primary_key then " PRIMARY KEY" else "") ++
      (if f.unique then " UNIQUE" else "") ++
      (if f.default != .pnone && !f.primary_key then
         (match f.default with
          | .pstr s => " DEFAULT '" ++ s ++ "'"
          | v => " DEFAULT " ++ v.text)
       else "") := by
  rcases f with ⟨ft, nb, df, pk, uq, fk⟩
  cases nb <;> cases pk <;> cases uq <;> cases df <;>
    simp [Orm.renderField, PyVal.text, String.append_assoc, String.append_empty,
      -String.reduceAppend]

/-! ## Claim theorems -/

/-- C1: for every table, data map and condition map, the UPDATE built by
`ConnectionPool.update` numbers the SET placeholders contiguously from
`$1` in the data map's iteration order, continues the WHERE numbering at
`$(k+1)` in the condition map's iteration order, and returns the data
values followed by the condition values; in particular, for
`data={a:1,b:2}` and `conditions={c:3}` the SQL uses `$1,$2` in SET and
`$3` in WHERE with argument list `[1,2,3]`. -/
theorem claim_C1_update_placeholder_numbering :
    (∀ (t : String) (data conds : List (String × PyVal)),
      ConnectionPool.update t data conds =
        ("UPDATE " ++ t ++ " SET " ++ String.intercalate ", " (specNumbered 1 data) ++
           " WHERE " ++ String.intercalate " AND " (specNumbered (data.length + 1) conds) ++
           " RETURNING *;",
         data.map Prod.snd ++ conds.map Prod.snd)) ∧
    ConnectionPool.update "t" [("a", .pint 1), ("b", .pint 2)] [("c", .pint 3)] =
      ("UPDATE t SET a = $1, b = $2 WHERE c = $3 RETURNING *;",
       [.pint 1, .pint 2, .pint 3]) := by
  constructor
  · intro t data conds
    unfold ConnectionPool.update
    rw [enumConds_eq_specNumbered, enumConds_eq_specNumbered]
  · decide

/-- C2 counterexample: the INSERT built by `BaseModel.save` is
`INSERT INTO "user_profile" ("id", "name") VALUES ($1, $2)` — quoted
identifiers and no `RETURNING *;` — so the pool-level INSERT shape does
not also hold for `save`, contrary to the claim. -/
theorem claim_C2_counterexample :
    (Orm.save_query Orm.UserSchema [("id", .pint 1), ("name", .pstr "x")]).1 =
      "INSERT INTO \"user_profile\" (\"id\", \"name\") VALUES ($1, $2)" ∧
    (Orm.save_query Orm.UserSchema [("id", .pint 1), ("name", .pstr "x")]).1 ≠
      "INSERT INTO user_profile (id, name) VALUES ($1, $2) RETURNING *;" := by decide

/-- C2 (amended): `ConnectionPool.create` emits exactly
`INSERT INTO <table> (<cols>) VALUES ($1..$n) RETURNING *;` with
placeholder order matching the data map's iteration order, while
`BaseModel.save` builds its INSERT from the instance's current field
values with double-quoted identifiers and no RETURNING clause, and
executes it without refreshing the instance state. -/
theorem claim_C2_insert_and_save_shapes :
    (∀ (t : String) (data : List (String × PyVal)),
      ConnectionPool.create t data =
        ("INSERT INTO " ++ t ++ " (" ++ String.intercalate ", " (data.map Prod.fst) ++
           ") VALUES (" ++ String.intercalate ", " (specPlaceholders 1 data.length) ++
           ") RETURNING *;",
         data.map Prod.snd)) ∧
    (∀ (m : Orm.ModelSchema) (d : List (String × PyVal)),
      Orm.save_query m d =
        ("INSERT INTO \"" ++ m.table_name ++ "\" (" ++
           String.intercalate ", " ((Orm.to_dict m d).map fun kv => "\"" ++ kv.1 ++ "\"") ++
           ") VALUES (" ++
           String.intercalate ", " (specPlaceholders 1 (Orm.to_dict m d).length) ++ ")",
         (Orm.to_dict m d).map Prod.snd)) ∧
    (∀ (m : Orm.ModelSchema) (d : List (String × PyVal))
       (exec : String → List PyVal → Except String String),
      (Orm.save_run m d exec).1 = d) := by
  refine ⟨?_, ?_, ?_⟩
  · intro t data
    unfold ConnectionPool.create
    rw [insertPlaceholders_eq]
  · intro m d
    simp only [Orm.save_query]
    rw [List.range_eq_range', range'_map_placeholder]
  · intro m d exec
    rfl

/-- C3: declaring two primary-key fields is accepted by
`ModelMeta.__new__` without any error — the last declaration wins and
both columns are rendered with PRIMARY KEY — while the claim (and the
spec's stated intent) requires such a declaration to be rejected with a
`SchemaError`. -/
theorem claim_C3_duplicate_primary_keys_not_rejected :
    Orm.DupSchema.primary_key = some "b" ∧
    Orm.DupSchema.fields_sql =
      [("a", "INTEGER NOT NULL PRIMARY KEY"), ("b", "INTEGER NOT NULL PRIMARY KEY")] := by
  decide

/-- C4: `BaseModel.find_by_id` fails with the schema error message
`Model <name> has no primary key defined` when no primary key is
declared; with a declared primary key it issues exactly the single-row
select `SELECT * FROM "<table>" WHERE "<pk>" = $1` with the key value as
its only argument, and returns none when the driver finds no row. -/
theorem claim_C4_find_by_id :
    ∀ (m : Orm.ModelSchema) (idv : PyVal)
      (fetchrow : String → List PyVal → Option (List (String × PyVal))),
      (m.primary_key = none →
        Orm.find_by_id m idv fetchrow =
          .error ("Model " ++ m.name ++ " has no primary key defined")) ∧
      (∀ p, m.primary_key = some p →
        Orm.find_by_id m idv fetchrow =
          .ok ((fetchrow ("SELECT * FROM \"" ++ m.table_name ++ "\" WHERE \"" ++ p ++ "\" = $1")
            [idv]).map (Orm.from_dict m)) ∧
        (fetchrow ("SELECT * FROM \"" ++ m.table_name ++ "\" WHERE \"" ++ p ++ "\" = $1")
            [idv] = none →
          Orm.find_by_id m idv fetchrow = .ok none)) := by
  intro m idv fetchrow
  constructor
  · intro h
    unfold Orm.find_by_id
    rw [h]
  · intro p hp
    constructor
    · unfold Orm.find_by_id
      rw [hp]
    · intro hnone
      unfold Orm.find_by_id
      rw [hp]
      simp only [hnone, Option.map_none']

/-- C4 witness: a model without a primary key fails with the schema
error, and a model with one returns none on an empty fetch. -/
theorem claim_C4_witness :
    Orm.find_by_id Orm.PointSchema (.pint 1) (fun _ _ => none) =
      .error "Model Point has no primary key defined" ∧
    Orm.find_by_id Orm.UserSchema (.pint 1) (fun _ _ => none) = .ok none := by
  constructor
  · exact (claim_C4_find_by_id Orm.PointSchema (.pint 1) (fun _ _ => none)).1 rfl
  · exact ((claim_C4_find_by_id Orm.UserSchema (.pint 1) (fun _ _ => none)).2 "id" rfl).2 rfl

/-- C5: `ModelMeta._camel_to_snake` is a pure deterministic function that
is idempotent on every input string, maps the acronym-run identifier
`"HTTPRequest"` to `"http_request"` (not `"h_t_t_p_request"`), and maps
the simple compound `"UserProfile"` to `"user_profile"`. -/
theorem claim_C5_naming_converter :
    (∀ s : String, camel_to_snake (camel_to_snake s) = camel_to_snake s) ∧
    camel_to_snake "HTTPRequest" = "http_request" ∧
    camel_to_snake "UserProfile" = "user_profile" :=
  ⟨camel_to_snake_idem, by decide, by decide⟩

/-- C6: every field's column SQL is rendered in the fixed clause order
`TYPE [NOT NULL] [PRIMARY KEY] [UNIQUE] [DEFAULT literal]`, string
defaults are single-quoted and other defaults use their literal textual
form, and a primary-key field never emits a DEFAULT clause even when a
default value was supplied. -/
theorem claim_C6_column_sql_rendering :
    ∀ f : Orm.Field,
      (Orm.renderField f =
        f.field_type.value ++ (if f.nullable then "" else " NOT NULL") ++
        (if f.primary_key then " PRIMARY KEY" else "") ++
        (if f.unique then " UNIQUE" else "") ++
        (if f.default != .pnone && !f.primary_key then
           (match f.default with
            | .pstr s => " DEFAULT '" ++ s ++ "'"
            | v => " DEFAULT " ++ v.text)
         else "")) ∧
      (f.primary_key = true → Orm.renderField f = Orm.renderField { f with default := .pnone }) := by
  intro f
  refine ⟨renderField_clauses f, fun h => ?_⟩
  rw [renderField_clauses, renderField_clauses]
  simp [h]

/-- C6 witness: a primary-key field with a supplied default renders
exactly as the same field without the default. -/
theorem claim_C6_witness :
    Orm.renderField pkDefaulted = Orm.renderField { pkDefaulted with default := PyVal.pnone } ∧
    Orm.renderField pkDefaulted = "INTEGER NOT NULL PRIMARY KEY" :=
  ⟨(claim_C6_column_sql_rendering pkDefaulted).2 rfl, by decide⟩

/-- C7 counterexample: calling `update` with no changed fields on an
instance holding a non-primary-key value is not a no-op — it still builds
and executes an UPDATE that re-sets the current value. -/
theorem claim_C7_counterexample :
    (Orm.update_op Orm.UserSchema [("id", .pint 1), ("name", .pstr "x")] []).2 =
      .ok (some ("UPDATE \"user_profile\" SET \"name\" = $1 WHERE \"id\" = $2",
        [.pstr "x", .pint 1])) := rfl

/-- C7 (amended): `update` merges the changed fields into the instance,
then builds an UPDATE whose SET list is the merged non-primary-key data
with contiguous placeholders and whose WHERE clause is keyed by the
primary-key value at the next placeholder; the primary key never appears
in the SET list; and the call is a no-op that returns without executing
exactly when the merged instance carries no field besides the primary key
— not merely when no field changed. -/
theorem claim_C7_update_build :
    ∀ (m : Orm.ModelSchema) (d kwargs : List (String × PyVal)) (p : String)
      (pkv : PyVal) (data2 : List (String × PyVal)),
      m.primary_key = some p →
      Orm.popKey (Orm.to_dict m (Orm.mergeFields m d kwargs)) p = some (pkv, data2) →
      (m.fields.map Prod.fst).Nodup →
      Orm.update_op m d kwargs =
        (Orm.mergeFields m d kwargs,
         .ok (if data2.isEmpty then none
              else some ("UPDATE \"" ++ m.table_name ++ "\" SET " ++
                  String.intercalate ", " (Orm.specNumberedQ 1 data2) ++
                  " WHERE \"" ++ p ++ "\" = $" ++ toString (data2.length + 1),
                data2.map Prod.snd ++ [pkv]))) ∧
      p ∉ data2.map Prod.fst := by
  intro m d kwargs p pkv data2 hp hpop hnd
  constructor
  · unfold Orm.update_op
    rw [hp]
    simp only [hpop]
    by_cases he : data2.isEmpty
    · simp [he]
    · simp only [he, if_false, Bool.false_eq_true]
      rw [enumQ_eq_specNumberedQ]
  · apply popKey_not_mem ?_ hpop
    rw [to_dict_keys]
    exact hnd

/-- C7 witness: updating the name of a user instance builds the expected
single-column UPDATE keyed by the primary key. -/
theorem claim_C7_witness :
    Orm.update_op Orm.UserSchema [("id", .pint 1)] [("name", .pstr "y")] =
      ([("id", PyVal.pint 1), ("name", PyVal.pstr "y")],
       .ok (some ("UPDATE \"user_profile\" SET \"name\" = $1 WHERE \"id\" = $2",
         [PyVal.pstr "y", PyVal.pint 1]))) ∧
      "id" ∉ ([("name", PyVal.pstr "y")] : List (String × PyVal)).map Prod.fst :=
  claim_C7_update_build Orm.UserSchema [("id", .pint 1)] [("name", .pstr "y")] "id"
    (PyVal.pint 1) [("name", PyVal.pstr "y")] rfl rfl (by decide)

/-- C8: `ConnectionPool.read` emits
`SELECT <projection> FROM <table> WHERE <k1> = $1 AND <k2> = $2 …;` with
arguments in the condition map's iteration order, and an empty condition
map still yields a WHERE clause followed by zero predicates. -/
theorem claim_C8_select_shape :
    (∀ (t proj : String) (conds : List (String × PyVal)),
      ConnectionPool.read t proj conds =
        ("SELECT " ++ proj ++ " FROM " ++ t ++ " WHERE " ++
           String.intercalate " AND " (specNumbered 1 conds) ++ ";",
         conds.map Prod.snd)) ∧
    (∀ t proj : String,
      ConnectionPool.read t proj [] =
        ("SELECT " ++ proj ++ " FROM " ++ t ++ " WHERE ;", [])) := by
  constructor
  · intro t proj conds
    unfold ConnectionPool.read
    rw [enumConds_eq_specNumbered]
  · intro t proj
    unfold ConnectionPool.read ConnectionPool.enumConds
    simp only [List.enum_nil, List.map_nil]
    have h : String.intercalate " AND " ([] : List String) = "" := rfl
    rw [h, String.append_empty, String.append_assoc]
    congr 1

/-- C9: `BaseModel.find_all` interpolates any truthy limit or offset
value verbatim into the SQL text — including an arbitrary string — so no
validation to non-negative integers takes place before interpolation,
contrary to the claim. -/
theorem claim_C9_limit_offset_interpolated_unvalidated :
    Orm.find_all_query Orm.UserSchema (some (.pstr "1; DROP TABLE user_profile")) none =
      "SELECT * FROM \"user_profile\" LIMIT 1; DROP TABLE user_profile" ∧
    Orm.find_all_query Orm.UserSchema (some (.pint 5)) (some (.pint 2)) =
      "SELECT * FROM \"user_profile\" LIMIT 5 OFFSET 2" ∧
    Orm.find_all_query Orm.UserSchema none none = "SELECT * FROM \"user_profile\"" := by
  decide

/-- C10: for a model with a declared primary key, the instance's field
state after `update` is the merged (overwritten) state whatever the
execution oracle returns — in particular a failing execution leaves the
instance holding the new values, so the mutation is never rolled back. -/
theorem claim_C10_update_state_independent :
    ∀ (m : Orm.ModelSchema) (d kwargs : List (String × PyVal)) (p : String)
      (exec1 exec2 : String → List PyVal → Except String String),
      m.primary_key = some p →
      (Orm.update_run m d kwargs exec1).1 = Orm.mergeFields m d kwargs ∧
      (Orm.update_run m d kwargs exec1).1 = (Orm.update_run m d kwargs exec2).1 := by
  intro m d kwargs p e1 e2 hp
  have hst : ∀ e, (Orm.update_run m d kwargs e).1 = Orm.mergeFields m d kwargs := by
    intro e
    unfold Orm.update_run Orm.update_op
    rw [hp]
    rcases hpop : Orm.popKey (Orm.to_dict m (Orm.mergeFields m d kwargs)) p with _ | ⟨v, rest⟩
    · simp only [hpop]
    · simp only [hpop]
      by_cases he : rest.isEmpty <;> simp [he]
  exact ⟨hst e1, (hst e1).trans (hst e2).symm⟩

/-- C10 witness: a failing execution still leaves the instance merged
with the new field values. -/
theorem claim_C10_witness :
    (Orm.update_run Orm.UserSchema [("id", .pint 1), ("name", .pstr "x")]
        [("name", .pstr "y")] (fun _ _ => .error "QueryError")).1 =
      Orm.mergeFields Orm.UserSchema [("id", .pint 1), ("name", .pstr "x")]
        [("name", .pstr "y")] :=
  (claim_C10_update_state_independent Orm.UserSchema [("id", .pint 1), ("name", .pstr "x")]
    [("name", .pstr "y")] "id" (fun _ _ => .error "QueryError")
    (fun _ _ => .ok "UPDATE 1") rfl).1
